import Mathlib

/-!
Shallow embedding of the massa-sc-runtime execution engine and ABI layer
(src/execution_impl.rs and src/abi_impl.rs), together with the parts of the
surrounding crate they depend on (env.rs, settings.rs, the wasmer metering
middleware), which are modelled from the specification where noted.

Guest wasm code is abstracted as a list of guest operations: each operation
costs one metering point (the per-instruction cost installed by
create_instance is the constant 1) and is either a plain instruction or one
of the ABI imports of abi_impl.rs. Host interface replies are an explicit
oracle sequence consumed in call order, so every source of input to an
execution is an explicit argument of the embedded functions.
-/

namespace Massa

/-- Modelled from the spec: settings.rs is not part of the given sources.
The Settings table maps each ABI call to its gas cost; it is read by every
ABI prologue and is constant during an invocation. -/
structure Settings where
  metering_call : Nat
  metering_print : Nat
  metering_set_data : Nat
  metering_get_data : Nat
  metering_create_sc : Nat
  metering_remaining_points : Nat
deriving DecidableEq, Repr

/-- The conventional entry point name, the constant MAIN of settings.rs. -/
def MAIN : String := "main"

/-- Guest linear memory, abstracted as a store of string cells: a cell is
either a well-formed guest string or unreadable content (invalid pointer
target or a non UTF-16 record). A StringPtr offset is an index into the
store; reading any other offset fails. -/
structure MemState where
  store : List (Option String)
deriving DecidableEq, Repr

/-- Per-instance state seen by every ABI function: the metering counter of
the wasmer instance (gas plus the exhausted flag of the metering
middleware) and the memory handle, which is absent until
init_with_instance has run (the wasm_env.memory field of env.rs). -/
structure Env where
  gas : Nat
  exhausted : Bool
  memory : Option MemState
deriving DecidableEq, Repr

/-- An Env as built by Env::new, before any instance exists. -/
def Env.empty : Env := { gas := 0, exhausted := false, memory := none }

/-- A raw i32 or i64 wasm value, as returned by a guest function. -/
inductive GVal where
  | i32 (n : Int)
  | i64 (n : Int)
deriving DecidableEq, Repr

/-- One guest operation: a plain wasm instruction or an ABI import call.
Pointer arguments are the i32 values the guest would pass. -/
inductive GuestOp where
  | nop
  | print (msg : Int)
  | callSc (address function param : Int)
  | getRemainingGas
  | createSc (bytecode : Int)
  | setData (key value : Int)
  | getData (key : Int)
  | setDataFor (address key value : Int)
  | getDataFor (address key : Int)
deriving DecidableEq, Repr

/-- An exported guest function: its body and the raw value it returns
(none when the wasm function has no result). -/
structure GuestFunc where
  body : List GuestOp
  ret : Option GVal
deriving DecidableEq, Repr

/-- A compiled module: either instantiation fails with an error (compile,
link or instantiation failure of create_instance) or it exposes its
exported functions. -/
structure Module where
  instErr : Option String
  exports : List (String × GuestFunc)
deriving DecidableEq, Repr

/-- A call made to the host Interface, recorded in order. -/
inductive HostCall where
  | get_module (address : String)
  | print (msg : String)
  | set_data (key : String) (value : List Nat)
  | get_data (key : String)
  | set_data_for (address key : String) (value : List Nat)
  | get_data_for (address key : String)
  | create_module (bytecode : List Nat)
deriving DecidableEq, Repr

/-- One value returned by the host Interface to the runtime. -/
inductive HostReply where
  | unit
  | err (msg : String)
  | module (m : Module)
  | bytes (b : List Nat)
  | addr (a : String)
deriving DecidableEq, Repr

/-- The host side of an execution: the sequence of replies the Interface
will return, consumed in call order, and the log of Interface calls made
so far. -/
structure Host where
  oracle : List HostReply
  log : List HostCall
deriving DecidableEq, Repr

/-- The value surfaced to the embedder on success (types.rs). -/
structure Response where
  ret : String
  remaining_gas : Nat
deriving DecidableEq, Repr

/-- Outcome of an ABI function or of an execution: success, a wasmer
RuntimeError trap (raised by the abi_bail macro or by metering), or a Rust
panic that unwinds past the runtime. -/
inductive AbiOutcome (α : Type) where
  | ok (a : α)
  | trap (msg : String)
  | panic (msg : String)
deriving DecidableEq, Repr

/-- The u64 to i32 cast of Rust (the expression in get_remaining_points of
abi_impl.rs): keep the low 32 bits and reinterpret as a signed value. -/
def u64_as_i32 (n : Nat) : Int :=
  if n % 2 ^ 32 < 2 ^ 31 then (n % 2 ^ 32 : Int) else (n % 2 ^ 32 : Int) - 2 ^ 32

/-- The byte encoding of a string, as String::as_bytes followed by to_vec.
Bytes are modelled as the character codes. -/
def strToBytes (s : String) : List Nat := s.data.map Char.toNat

/-- Model of std::str::from_utf8: decoding byte content back to a string
can fail; the model accepts exactly the single-byte (ASCII) encodings. -/
def from_utf8 (b : List Nat) : Option String :=
  if b.all (fun c => c < 128) then some (String.mk (b.map (fun c => Char.ofNat c)))
  else none

/-- Model of the base64 crate decode used by assembly_script_create_sc: a
string decodes when every character is in the base64 alphabet. -/
def base64_decode (s : String) : Option (List Nat) :=
  if s.data.all (fun c => c.isAlphanum || c = '+' || c = '/' || c = '=') then
    some (strToBytes s)
  else none

/-- Read of a guest string through a StringPtr offset. -/
def memRead (m : MemState) (off : Int) : Option String :=
  if off < 0 then none
  else
    match m.store.get? off.toNat with
    | some c => c
    | none => none

/-- Allocation of a string in guest memory through the guest allocator
export (StringPtr::alloc of the as_ffi_bindings helper): appends a cell
and returns its offset. -/
def memAlloc (m : MemState) (s : String) : MemState × Nat :=
  ({ store := m.store ++ [some s] }, m.store.length)

/-- StringPtr::alloc against the memory handle of an Env: fails when the
handle was never initialised. -/
def env_alloc (env : Env) (s : String) : AbiOutcome Nat × Env :=
  match env.memory with
  | none => (.trap "uninitialized memory", env)
  | some m =>
    let r := memAlloc m s
    (.ok r.2, { env with memory := some r.1 })

/-- Modelled from the spec: sub_remaining_point of env.rs decrements the
metering counter of the wasmer middleware; if the deduction would drop the
counter to zero or below, the counter is left at zero and the metering
state becomes Exhausted, which traps the call. -/
def sub_remaining_point (e : Env) (n : Nat) : Env :=
  if n < e.gas then { e with gas := e.gas - n }
  else { e with gas := 0, exhausted := true }

/-- Modelled from the spec: get_remaining_points_for_env of env.rs reports
the current metering counter. -/
def get_remaining_points_for_env (e : Env) : Nat := e.gas

/-- Pop the next host reply, recording the Interface call in the log. -/
def host_reply (host : Host) (c : HostCall) : HostReply × Host :=
  match host.oracle with
  | [] => (.err "no host reply", { oracle := [], log := host.log ++ [c] })
  | r :: rest => (r, { oracle := rest, log := host.log ++ [c] })

/-- Interface.print. -/
def interface_print (host : Host) (msg : String) : Except String Unit × Host :=
  match host_reply host (.print msg) with
  | (.unit, h2) => (.ok (), h2)
  | (.err e, h2) => (.error e, h2)
  | (_, h2) => (.error "unexpected host reply", h2)

/-- Interface.get_module, resolving the module stored at an address. -/
def interface_get_module (host : Host) (address : String) :
    Except String Module × Host :=
  match host_reply host (.get_module address) with
  | (.module m, h2) => (.ok m, h2)
  | (.err e, h2) => (.error e, h2)
  | (_, h2) => (.error "unexpected host reply", h2)

/-- Interface.set_data. -/
def interface_set_data (host : Host) (key : String) (value : List Nat) :
    Except String Unit × Host :=
  match host_reply host (.set_data key value) with
  | (.unit, h2) => (.ok (), h2)
  | (.err e, h2) => (.error e, h2)
  | (_, h2) => (.error "unexpected host reply", h2)

/-- Interface.get_data. -/
def interface_get_data (host : Host) (key : String) :
    Except String (List Nat) × Host :=
  match host_reply host (.get_data key) with
  | (.bytes b, h2) => (.ok b, h2)
  | (.err e, h2) => (.error e, h2)
  | (_, h2) => (.error "unexpected host reply", h2)

/-- Interface.set_data_for. -/
def interface_set_data_for (host : Host) (address key : String)
    (value : List Nat) : Except String Unit × Host :=
  match host_reply host (.set_data_for address key value) with
  | (.unit, h2) => (.ok (), h2)
  | (.err e, h2) => (.error e, h2)
  | (_, h2) => (.error "unexpected host reply", h2)

/-- Interface.get_data_for. -/
def interface_get_data_for (host : Host) (address key : String) :
    Except String (List Nat) × Host :=
  match host_reply host (.get_data_for address key) with
  | (.bytes b, h2) => (.ok b, h2)
  | (.err e, h2) => (.error e, h2)
  | (_, h2) => (.error "unexpected host reply", h2)

/-- Interface.create_module. -/
def interface_create_module (host : Host) (bytecode : List Nat) :
    Except String String × Host :=
  match host_reply host (.create_module bytecode) with
  | (.addr a, h2) => (.ok a, h2)
  | (.err e, h2) => (.error e, h2)
  | (_, h2) => (.error "unexpected host reply", h2)

/-- Type of the recursive entry used by the nested call ABI: it runs exec
on a freshly fetched module with a given gas limit and returns the
response together with the threaded host state. -/
abbrev ExecCb := Module → Nat → String → String → Host → AbiOutcome Response × Host

/-- The call_module helper of abi_impl.rs: fetch the module at the address
through the Interface, then run exec on it seeded with the remaining gas
of the calling Env. -/
def call_module (cb : ExecCb) (env : Env) (address function param : String)
    (host : Host) : AbiOutcome Response × Host :=
  match interface_get_module host address with
  | (.error e, h2) => (.trap e, h2)
  | (.ok m, h2) => cb m (get_remaining_points_for_env env) function param h2

/-- The assembly_script_call ABI import (assembly_script_call_module in
abi_impl.rs): prologue gas deduction, the three string argument reads,
the nested call, then allocation of the returned string in the caller
memory. The metering counter of the caller is not otherwise touched. -/
def assembly_script_call_module (S : Settings) (cb : ExecCb) (env : Env)
    (host : Host) (address function param : Int) :
    AbiOutcome Int × Env × Host :=
  let env1 := sub_remaining_point env S.metering_call
  if env1.exhausted then (.trap "gas limit reached", env1, host)
  else
    match env1.memory with
    | none => (.trap "uninitialized memory", env1, host)
    | some mem =>
      match memRead mem address, memRead mem function, memRead mem param with
      | some a, some f, some p =>
        match call_module cb env1 a f p host with
        | (.panic m, h2) => (.panic m, env1, h2)
        | (.trap e, h2) => (.trap e, env1, h2)
        | (.ok resp, h2) =>
          match env_alloc env1 resp.ret with
          | (.ok off, env2) => (.ok (Int.ofNat off), env2, h2)
          | (.trap _, env2) =>
            (.trap "Cannot allocate response in call", env2, h2)
          | (.panic m, env2) => (.panic m, env2, h2)
      | _, _, _ =>
        (.trap
          "Cannot read address, function or param in memory in call module request ABI",
          env1, host)

/-- The assembly_script_get_remaining_gas ABI import (get_remaining_points
in abi_impl.rs): deduct the configured cost, then report the counter cast
from u64 to i32. -/
def get_remaining_points (S : Settings) (env : Env) (host : Host) :
    AbiOutcome Int × Env × Host :=
  let env1 := sub_remaining_point env S.metering_remaining_points
  if env1.exhausted then (.trap "gas limit reached", env1, host)
  else (.ok (u64_as_i32 (get_remaining_points_for_env env1)), env1, host)

/-- The create_sc helper of abi_impl.rs: delegate to
Interface.create_module. -/
def create_sc (host : Host) (bytecode : List Nat) : Except String String × Host :=
  interface_create_module host bytecode

/-- The assembly_script_print ABI import. -/
def assembly_script_print (S : Settings) (env : Env) (host : Host)
    (arg : Int) : AbiOutcome Unit × Env × Host :=
  let env1 := sub_remaining_point env S.metering_print
  if env1.exhausted then (.trap "gas limit reached", env1, host)
  else
    match env1.memory with
    | none => (.trap "uninitialized memory", env1, host)
    | some mem =>
      match memRead mem arg with
      | some message =>
        match interface_print host message with
        | (.ok _, h2) => (.ok (), env1, h2)
        | (.error _, h2) => (.trap "Failed to print message", env1, h2)
      | none => (.trap "Cannot read message pointer in memory", env1, host)

/-- The assembly_script_create_sc ABI import. -/
def assembly_script_create_sc (S : Settings) (env : Env) (host : Host)
    (bytecode : Int) : AbiOutcome Int × Env × Host :=
  let env1 := sub_remaining_point env S.metering_create_sc
  if env1.exhausted then (.trap "gas limit reached", env1, host)
  else
    match env1.memory with
    | none => (.trap "uninitialized memory", env1, host)
    | some mem =>
      match memRead mem bytecode with
      | some bc =>
        match base64_decode bc with
        | none => (.trap "Failed to decode module", env1, host)
        | some bin =>
          match create_sc host bin with
          | (.error _, h2) =>
            (.trap "Failed to create module smart contract", env1, h2)
          | (.ok address, h2) =>
            match env_alloc env1 address with
            | (.ok off, env2) => (.ok (Int.ofNat off), env2, h2)
            | (.trap _, env2) =>
              (.trap "Cannot allocate address in memory", env2, h2)
            | (.panic m, env2) => (.panic m, env2, h2)
      | none => (.trap "Cannot read bytecode pointer in memory", env1, host)

/-- The assembly_script_set_data ABI import. Unlike the other ABI
functions it obtains the memory handle with expect, which panics instead
of trapping when the handle is absent. -/
def assembly_script_set_data (S : Settings) (env : Env) (host : Host)
    (key value : Int) : AbiOutcome Unit × Env × Host :=
  let env1 := sub_remaining_point env S.metering_set_data
  if env1.exhausted then (.trap "gas limit reached", env1, host)
  else
    match env1.memory with
    | none => (.panic "uninitialized memory", env1, host)
    | some mem =>
      match memRead mem key, memRead mem value with
      | some k, some v =>
        match interface_set_data host k (strToBytes v) with
        | (.ok _, h2) => (.ok (), env1, h2)
        | (.error e, h2) => (.trap e, env1, h2)
      | _, _ => (.trap "Invalid pointer of key or value", env1, host)

/-- Tooling of abi_impl.rs: allocate a string from host bytes after UTF-8
validation; invalid byte content traps. -/
def pointer_from_utf8 (env : Env) (bytecode : List Nat) :
    AbiOutcome Nat × Env :=
  match from_utf8 bytecode with
  | some data => env_alloc env data
  | none => (.trap "invalid utf-8 sequence", env)

/-- The assembly_script_get_data ABI import; obtains the memory handle
with expect, which panics when the handle is absent. -/
def assembly_script_get_data (S : Settings) (env : Env) (host : Host)
    (key : Int) : AbiOutcome Int × Env × Host :=
  let env1 := sub_remaining_point env S.metering_get_data
  if env1.exhausted then (.trap "gas limit reached", env1, host)
  else
    match env1.memory with
    | none => (.panic "uninitialized memory", env1, host)
    | some mem =>
      match memRead mem key with
      | some k =>
        match interface_get_data host k with
        | (.error _, h2) => (.trap "Failed to get data from ledger", env1, h2)
        | (.ok data, h2) =>
          match pointer_from_utf8 env1 data with
          | (.ok off, env2) => (.ok (Int.ofNat off), env2, h2)
          | (.trap m, env2) => (.trap m, env2, h2)
          | (.panic m, env2) => (.panic m, env2, h2)
      | none => (.trap "Invalid pointer of key", env1, host)

/-- The assembly_script_set_data_for ABI import; obtains the memory handle
with expect, which panics when the handle is absent. -/
def assembly_script_set_data_for (S : Settings) (env : Env) (host : Host)
    (address key value : Int) : AbiOutcome Unit × Env × Host :=
  let env1 := sub_remaining_point env S.metering_set_data
  if env1.exhausted then (.trap "gas limit reached", env1, host)
  else
    match env1.memory with
    | none => (.panic "uninitialized memory", env1, host)
    | some mem =>
      match memRead mem address, memRead mem key, memRead mem value with
      | some a, some k, some v =>
        match interface_set_data_for host a k (strToBytes v) with
        | (.ok _, h2) => (.ok (), env1, h2)
        | (.error e, h2) => (.trap e, env1, h2)
      | _, _, _ => (.trap "Invalid pointer of key, value or address", env1, host)

/-- The assembly_script_get_data_for ABI import; obtains the memory handle
with expect, which panics when the handle is absent. -/
def assembly_script_get_data_for (S : Settings) (env : Env) (host : Host)
    (address key : Int) : AbiOutcome Int × Env × Host :=
  let env1 := sub_remaining_point env S.metering_get_data
  if env1.exhausted then (.trap "gas limit reached", env1, host)
  else
    match env1.memory with
    | none => (.panic "uninitialized memory", env1, host)
    | some mem =>
      match memRead mem address, memRead mem key with
      | some a, some k =>
        match interface_get_data_for host a k with
        | (.error _, h2) => (.trap "Failed to get data from ledger", env1, h2)
        | (.ok data, h2) =>
          match pointer_from_utf8 env1 data with
          | (.ok off, env2) => (.ok (Int.ofNat off), env2, h2)
          | (.trap m, env2) => (.trap m, env2, h2)
          | (.panic m, env2) => (.panic m, env2, h2)
      | _, _ => (.trap "Invalid pointer of key or address", env1, host)

/-- Drop the value of an ABI result, keeping outcome, Env and Host. -/
def discardRet {α : Type} (r : AbiOutcome α × Env × Host) :
    AbiOutcome Unit × Env × Host :=
  match r with
  | (.ok _, e, h) => (.ok (), e, h)
  | (.trap m, e, h) => (.trap m, e, h)
  | (.panic m, e, h) => (.panic m, e, h)

/-- Dispatch one guest operation to the ABI layer. -/
def execOp (S : Settings) (cb : ExecCb) (op : GuestOp) (env : Env)
    (host : Host) : AbiOutcome Unit × Env × Host :=
  match op with
  | .nop => (.ok (), env, host)
  | .print p => discardRet (assembly_script_print S env host p)
  | .callSc a f p => discardRet (assembly_script_call_module S cb env host a f p)
  | .getRemainingGas => discardRet (get_remaining_points S env host)
  | .createSc b => discardRet (assembly_script_create_sc S env host b)
  | .setData k v => discardRet (assembly_script_set_data S env host k v)
  | .getData k => discardRet (assembly_script_get_data S env host k)
  | .setDataFor a k v => discardRet (assembly_script_set_data_for S env host a k v)
  | .getDataFor a k => discardRet (assembly_script_get_data_for S env host a k)

/-- Run a guest function body: the metering middleware installed by
create_instance charges one point per instruction before it executes;
reaching zero sets Exhausted and traps. -/
def runOps (S : Settings) (cb : ExecCb) :
    List GuestOp → Env → Host → AbiOutcome Unit × Env × Host
  | [], env, host => (.ok (), env, host)
  | op :: rest, env, host =>
    let env1 := sub_remaining_point env 1
    if env1.exhausted then (.trap "gas limit reached", env1, host)
    else
      match execOp S cb op env1 host with
      | (.ok _, env2, h2) => runOps S cb rest env2 h2
      | (.trap m, env2, h2) => (.trap m, env2, h2)
      | (.panic m, env2, h2) => (.panic m, env2, h2)

/-- The execution closure nested inside exec in execution_impl.rs:
allocate the parameter as a guest string, invoke the named export, then
shape the Response: the conventional entry always yields "0"; otherwise a
returned i32 is read back from memory as the result string and no return
value yields the empty string. The final metering charge models the end
instruction of the invoked wasm function, metered like any instruction. -/
def execution (S : Settings) (cb : ExecCb) (m : Module)
    (function param : String) (env : Env) (host : Host) :
    AbiOutcome Response × Env × Host :=
  match env_alloc env param with
  | (.trap msg, env1) => (.trap msg, env1, host)
  | (.panic msg, env1) => (.panic msg, env1, host)
  | (.ok _paramPtr, env1) =>
    match m.exports.lookup function with
    | none => (.trap ("Missing export " ++ function), env1, host)
    | some f =>
      match runOps S cb f.body env1 host with
      | (.trap msg, env2, h2) => (.trap msg, env2, h2)
      | (.panic msg, env2, h2) => (.panic msg, env2, h2)
      | (.ok _, env2, h2) =>
        let env3 := sub_remaining_point env2 1
        if env3.exhausted then (.trap "gas limit reached", env3, h2)
        else if function = MAIN then
          (.ok { ret := "0", remaining_gas := get_remaining_points_for_env env3 },
            env3, h2)
        else
          match f.ret with
          | none =>
            (.ok { ret := "", remaining_gas := get_remaining_points_for_env env3 },
              env3, h2)
          | some (.i64 _) =>
            (.trap "Execution was not in capacity to read the return value",
              env3, h2)
          | some (.i32 off) =>
            match env3.memory with
            | none => (.trap "uninitialized memory", env3, h2)
            | some mem =>
              match memRead mem off with
              | some ret =>
                (.ok { ret := ret,
                       remaining_gas := get_remaining_points_for_env env3 },
                  env3, h2)
              | none => (.trap "Cannot read the return string", env3, h2)

/-- The create_instance function of execution_impl.rs, up to the wasmer
internals: a module either fails to compile, link or instantiate, or
yields an instance whose metering counter is seeded with the limit. -/
def create_instance (limit : Nat) (m : Module) : Except String Env :=
  match m.instErr with
  | some e => .error e
  | none => .ok { gas := limit, exhausted := false, memory := none }

/-- The init_with_instance step of env.rs: publish the memory handle of
the instantiated sandbox to the Env. -/
def init_with_instance (e : Env) : Env := { e with memory := some { store := [] } }

/-- Instance selection at the top of exec: adopt the instance passed by
run_main or create a fresh one from the module bytes. -/
def get_instance (limit : Nat) (inst : Option Env) (m : Module) :
    Except String Env :=
  match inst with
  | some i => .ok i
  | none => create_instance limit m

/-- The body of exec of execution_impl.rs, abstracted over the recursive
entry used for nested calls: build or adopt the instance, run the
execution closure, and on a trap consult the metering state of the
instance to distinguish gas exhaustion from other traps. -/
def exec_core (S : Settings) (cb : ExecCb) (limit : Nat) (inst : Option Env)
    (m : Module) (function param : String) (host : Host) :
    AbiOutcome Response × Env × Host :=
  match get_instance limit inst m with
  | .error e => (.trap e, Env.empty, host)
  | .ok env0 =>
    match execution S cb m function param (init_with_instance env0) host with
    | (.ok resp, env2, h2) => (.ok resp, env2, h2)
    | (.panic msg, env2, h2) => (.panic msg, env2, h2)
    | (.trap err, env2, h2) =>
      if env2.exhausted then
        (.trap ("Not enough gas, limit reached at: " ++ function), env2, h2)
      else (.trap err, env2, h2)

/-- The exec function of execution_impl.rs. The fuel argument bounds the
depth of nested calls so that the recursion is well founded; it is not
part of the source, which can recurse unboundedly. -/
def exec (S : Settings) :
    Nat → Nat → Option Env → Module → String → String → Host →
    AbiOutcome Response × Env × Host
  | 0, _limit, _inst, _m, _function, _param, host =>
    (.trap "nested call depth fuel exhausted", Env.empty, host)
  | fuel + 1, limit, inst, m, function, param, host =>
    exec_core S
      (fun m2 lim2 f2 p2 h2 =>
        let r := exec S fuel lim2 none m2 f2 p2 h2
        (r.1, r.2.2))
      limit inst m function param host

/-- The recursive entry handed to the ABI layer by exec: the nested exec
with one unit of fuel less, dropping the nested instance state. -/
def execCb (S : Settings) (fuel : Nat) : ExecCb :=
  fun m2 lim2 f2 p2 h2 =>
    let r := exec S fuel lim2 none m2 f2 p2 h2
    (r.1, r.2.2)

/-- The run_main entry point of execution_impl.rs. -/
def run_main (S : Settings) (fuel : Nat) (m : Module) (limit : Nat)
    (host : Host) : AbiOutcome Nat × Host :=
  match create_instance limit m with
  | .error e => (.trap e, host)
  | .ok inst =>
    if m.exports.any (fun x => x.1 == MAIN) then
      match exec S fuel limit (some inst) m MAIN "" host with
      | (.ok r, _, h2) => (.ok r.remaining_gas, h2)
      | (.trap e, _, h2) => (.trap e, h2)
      | (.panic e, _, h2) => (.panic e, h2)
    else (.ok limit, host)

/-- The run_function entry point of execution_impl.rs. -/
def run_function (S : Settings) (fuel : Nat) (m : Module) (limit : Nat)
    (function param : String) (host : Host) : AbiOutcome Nat × Host :=
  match exec S fuel limit none m function param host with
  | (.ok r, _, h2) => (.ok r.remaining_gas, h2)
  | (.trap e, _, h2) => (.trap e, h2)
  | (.panic e, _, h2) => (.panic e, h2)

/-- Whether an ABI outcome is a trap. -/
def AbiOutcome.isTrap {α : Type} : AbiOutcome α → Bool
  | .trap _ => true
  | _ => false

/-! ### Concrete fixtures used by witnesses and counterexamples -/

/-- A settings table with distinct small costs. -/
def S0 : Settings := ⟨100, 10, 10, 10, 10, 10⟩

/-- A host with no replies and an empty call log. -/
def host0 : Host := { oracle := [], log := [] }

/-- A module exporting a conventional main entry that returns a raw value. -/
def M_main : Module :=
  { instErr := none,
    exports := [("main", { body := [], ret := some (.i32 999) })] }

/-- A module exporting a function f of 50 plain instructions. -/
def M_nested : Module :=
  { instErr := none,
    exports := [("f", { body := List.replicate 50 .nop, ret := none })] }

/-- A module whose main needs more instructions than a small limit. -/
def M_gas : Module :=
  { instErr := none,
    exports := [("main", { body := List.replicate 10 .nop, ret := none })] }

/-- A module without the conventional entry. -/
def M_nomain : Module :=
  { instErr := none, exports := [("g", { body := [], ret := none })] }

/-- A module that fails to instantiate and exports nothing. -/
def M_badInst : Module := { instErr := some "compilation error", exports := [] }

/-- A caller Env: plenty of gas, three readable strings in memory. -/
def envC2 : Env :=
  { gas := 1000, exhausted := false,
    memory := some { store := [some "A", some "f", some "p"] } }

/-- The host for the nested call scenario: one module reply. -/
def hostC2 : Host := { oracle := [.module M_nested], log := [] }

/-- The host state after the get_module Interface call of the scenario. -/
def hostC2_after : Host := { oracle := [], log := [.get_module "A"] }

/-- An Env whose memory handle was never initialised. -/
def envNoMem : Env := { gas := 1000, exhausted := false, memory := none }

/-- An Env with an initialised but empty memory: every read fails. -/
def envEmptyMem : Env :=
  { gas := 1000, exhausted := false, memory := some { store := [] } }

/-- An Env whose remaining gas exceeds the i32 range after a deduction. -/
def envBig : Env := { gas := 2 ^ 31 + 19, exhausted := false, memory := none }

/-- An Env with little gas, below every cost of the S0 table. -/
def envLow : Env := { gas := 5, exhausted := false, memory := none }

/-- A module exporting a function g with no return value. -/
def M_noret : Module :=
  { instErr := none, exports := [("g", { body := [.nop], ret := none })] }

/-! ### Helper lemmas -/

/-- Invariant of the metering counter: an exhausted instance has counter
zero. -/
def GasInv (e : Env) : Prop := e.exhausted = true → e.gas = 0

theorem sub_remaining_point_lt {e : Env} {n : Nat} (h : n < e.gas) :
    sub_remaining_point e n = { e with gas := e.gas - n } := by
  unfold sub_remaining_point
  rw [if_pos h]

theorem sub_remaining_point_ge {e : Env} {n : Nat} (h : e.gas ≤ n) :
    sub_remaining_point e n = { e with gas := 0, exhausted := true } := by
  unfold sub_remaining_point
  rw [if_neg (by omega)]

theorem sub_remaining_point_gas_le (e : Env) (n : Nat) :
    (sub_remaining_point e n).gas ≤ e.gas := by
  unfold sub_remaining_point
  split <;> simp

theorem sub_remaining_point_gasInv {e : Env} (n : Nat) (h : GasInv e) :
    GasInv (sub_remaining_point e n) := by
  unfold GasInv at h ⊢
  unfold sub_remaining_point
  split <;> simp_all

theorem sub_remaining_point_memory (e : Env) (n : Nat) :
    (sub_remaining_point e n).memory = e.memory := by
  unfold sub_remaining_point
  split <;> rfl

theorem sub_remaining_point_not_exhausted {e : Env} {n : Nat}
    (h : (sub_remaining_point e n).exhausted = false) :
    e.exhausted = false ∧ n < e.gas ∧
      (sub_remaining_point e n).gas = e.gas - n := by
  unfold sub_remaining_point at h ⊢
  by_cases hn : n < e.gas
  · rw [if_pos hn] at h ⊢
    exact ⟨h, hn, rfl⟩
  · rw [if_neg hn] at h
    simp at h

theorem env_alloc_gas (e : Env) (s : String) :
    (env_alloc e s).2.gas = e.gas ∧ (env_alloc e s).2.exhausted = e.exhausted := by
  unfold env_alloc
  cases e.memory <;> simp

theorem exec_succ (S : Settings) (fuel limit : Nat) (inst : Option Env)
    (m : Module) (function param : String) (host : Host) :
    exec S (fuel + 1) limit inst m function param host =
      exec_core S (execCb S fuel) limit inst m function param host := rfl

/-! ### Claims -/

/-- C1: executions of exec (and of run_main and run_function) are
deterministic: identical module, gas limit, function name, parameter and
identical sequences of host Interface replies yield identical results, in
particular bit-identical Response values and equal remaining gas. All
inputs of an execution are explicit arguments of the embedding, so the
result is a function of exactly the tuple the claim quantifies over. -/
theorem exec_deterministic (S : Settings) (fuel limit : Nat) (m : Module)
    (function param : String) (o1 o2 : List HostReply) (log : List HostCall)
    (h : o1 = o2) :
    exec S fuel limit none m function param { oracle := o1, log := log } =
      exec S fuel limit none m function param { oracle := o2, log := log } ∧
    run_main S fuel m limit { oracle := o1, log := log } =
      run_main S fuel m limit { oracle := o2, log := log } ∧
    run_function S fuel m limit function param { oracle := o1, log := log } =
      run_function S fuel m limit function param { oracle := o2, log := log } := by
  subst h
  exact ⟨rfl, rfl, rfl⟩

theorem exec_deterministic_witness :
    exec S0 10 50 none M_main "main" "" { oracle := [], log := [] } =
      exec S0 10 50 none M_main "main" "" { oracle := [], log := [] } ∧
    run_main S0 10 M_main 50 { oracle := [], log := [] } =
      run_main S0 10 M_main 50 { oracle := [], log := [] } ∧
    run_function S0 10 M_main 50 "main" "" { oracle := [], log := [] } =
      run_function S0 10 M_main 50 "main" "" { oracle := [], log := [] } :=
  exec_deterministic S0 10 50 M_main "main" "" [] [] [] rfl

/-- C2: the nested call is seeded with the remaining gas of the caller
after the call prologue (here 1000 - 100 = 900, the value of
get_remaining_points_for_env on the caller Env), and the nested execution
returns with remaining gas 849, but the metering counter of the caller
after the ABI call is still 900: the remaining gas of the nested
invocation is never written back, so the gas consumed inside the callee
is not debited from the budget of the caller, contradicting the claim. -/
theorem nested_call_gas_not_debited :
    (assembly_script_call_module S0 (execCb S0 10) envC2 hostC2 0 1 2).1 =
      .ok 3 ∧
    (assembly_script_call_module S0 (execCb S0 10) envC2 hostC2 0 1 2).2.1.gas =
      900 ∧
    get_remaining_points_for_env (sub_remaining_point envC2 S0.metering_call) =
      900 ∧
    (exec S0 10 900 none M_nested "f" "p" hostC2_after).1 =
      .ok { ret := "", remaining_gas := 849 } ∧
    (900 : Nat) ≠ 849 :=
  ⟨rfl, rfl, rfl, rfl, by decide⟩

/-- C6 is violated by the code: the set_data, get_data, set_data_for and
get_data_for ABI functions obtain the memory handle with expect, which
panics with the message uninitialized memory instead of raising a trap,
while print, call and create_sc go through the trapping get_memory macro.
The claim that no ABI function panics on an absent memory handle fails. -/
theorem uninitialized_memory_panics :
    (assembly_script_set_data S0 envNoMem host0 0 1).1 =
      .panic "uninitialized memory" ∧
    (assembly_script_get_data S0 envNoMem host0 0).1 =
      .panic "uninitialized memory" ∧
    (assembly_script_set_data_for S0 envNoMem host0 0 1 2).1 =
      .panic "uninitialized memory" ∧
    (assembly_script_get_data_for S0 envNoMem host0 0 1).1 =
      .panic "uninitialized memory" ∧
    (assembly_script_print S0 envNoMem host0 0).1 =
      .trap "uninitialized memory" ∧
    (assembly_script_call_module S0 (execCb S0 1) envNoMem host0 0 1 2).1 =
      .trap "uninitialized memory" ∧
    (assembly_script_create_sc S0 envNoMem host0 0).1 =
      .trap "uninitialized memory" :=
  ⟨rfl, rfl, rfl, rfl, rfl, rfl, rfl⟩

/-- C8 as stated is false: a module that does not export the conventional
entry but fails to instantiate (for example a link failure) makes
run_main return the instantiation error, not the limit. -/
theorem run_main_instantiation_failure :
    M_badInst.exports.any (fun x => x.1 == MAIN) = false ∧
    run_main S0 10 M_badInst 50 host0 = (.trap "compilation error", host0) ∧
    (run_main S0 10 M_badInst 50 host0).1 ≠ .ok 50 :=
  ⟨rfl, rfl, by decide⟩

/-- C8 amended: for every module that instantiates successfully and does
not export the conventional entry, run_main succeeds and returns exactly
the input limit, unchanged. -/
theorem run_main_no_main_returns_limit (S : Settings) (fuel : Nat)
    (m : Module) (limit : Nat) (host : Host) (h1 : m.instErr = none)
    (h2 : m.exports.any (fun x => x.1 == MAIN) = false) :
    run_main S fuel m limit host = (.ok limit, host) := by
  unfold run_main create_instance
  rw [h1]
  simp [h2]

theorem run_main_no_main_returns_limit_witness :
    run_main S0 10 M_nomain 50 host0 = (.ok 50, host0) :=
  run_main_no_main_returns_limit S0 10 M_nomain 50 host0 rfl rfl

/-- C10: the ABI operation reporting remaining gas first deducts its own
configured cost, then returns the counter cast from u64 to i32 with the
Rust as cast; whenever the counter after the deduction exceeds the i32
maximum, the value observed by the guest is the wrapped cast, which
differs from the true remaining gas. -/
theorem get_remaining_points_wraps (S : Settings) (env : Env) (host : Host)
    (hx : env.exhausted = false) (h : S.metering_remaining_points < env.gas) :
    (get_remaining_points S env host).1 =
      .ok (u64_as_i32 (env.gas - S.metering_remaining_points)) ∧
    (2 ^ 31 - 1 < env.gas - S.metering_remaining_points →
      u64_as_i32 (env.gas - S.metering_remaining_points) ≠
        ((env.gas - S.metering_remaining_points : Nat) : Int)) := by
  constructor
  · unfold get_remaining_points
    rw [sub_remaining_point_lt h]
    simp [hx, get_remaining_points_for_env]
  · intro hg
    unfold u64_as_i32
    split <;> push_cast <;> omega

theorem get_remaining_points_wraps_witness :
    (get_remaining_points S0 envBig host0).1 = .ok (-2147483639) ∧
    u64_as_i32 (2 ^ 31 + 9) ≠ ((2 ^ 31 + 9 : Nat) : Int) := by
  have h := get_remaining_points_wraps S0 envBig host0 rfl (by decide)
  refine ⟨?_, ?_⟩
  · rw [h.1]
    decide
  · exact h.2 (by decide)

/-- A successful execution of the conventional entry yields ret 0. -/
theorem execution_ok_main {S : Settings} {cb : ExecCb} {m : Module}
    {param : String} {env : Env} {host : Host} {r : Response} {env2 : Env}
    {h2 : Host}
    (h : execution S cb m MAIN param env host = (.ok r, env2, h2)) :
    r.ret = "0" := by
  unfold execution at h
  dsimp only at h
  repeat' split at h
  all_goals try simp_all
  all_goals (obtain ⟨hr, -, -⟩ := h; rw [← hr])

/-- A successful execution of a function without return value and distinct
from the conventional entry yields the empty ret. -/
theorem execution_ok_noret {S : Settings} {cb : ExecCb} {m : Module}
    {function param : String} {env : Env} {host : Host} {r : Response}
    {env2 : Env} {h2 : Host} {f : GuestFunc}
    (hf : m.exports.lookup function = some f) (hret : f.ret = none)
    (hfn : function ≠ MAIN)
    (h : execution S cb m function param env host = (.ok r, env2, h2)) :
    r.ret = "" := by
  unfold execution at h
  dsimp only at h
  repeat' split at h
  all_goals try simp_all
  all_goals (obtain ⟨hr, -, -⟩ := h; rw [← hr])

/-- A successful exec comes from a successful execution on the adopted or
freshly created instance. -/
theorem exec_core_ok {S : Settings} {cb : ExecCb} {limit : Nat}
    {inst : Option Env} {m : Module} {function param : String} {host : Host}
    {r : Response} {env2 : Env} {h2 : Host}
    (h : exec_core S cb limit inst m function param host = (.ok r, env2, h2)) :
    ∃ env0, get_instance limit inst m = .ok env0 ∧
      execution S cb m function param (init_with_instance env0) host =
        (.ok r, env2, h2) := by
  unfold exec_core at h
  split at h
  · simp at h
  · rename_i env0 heq
    split at h
    · rename_i resp e2 hh2 heq2
      obtain ⟨hr, he, hh⟩ := by simpa using h
      subst hr; subst he; subst hh
      exact ⟨env0, heq, heq2⟩
    · rename_i msg e2 hh2 heq2
      simp at h
    · rename_i err e2 hh2 heq2
      split at h <;> simp at h

/-- C3: when exec fails after the execution closure ran, the returned
error is classified by the metering state of the instance: if it is
Exhausted the embedder sees the error beginning
Not enough gas, limit reached at: followed by the invoked function name,
and otherwise the original trap message is propagated verbatim. -/
theorem exec_trap_classification (S : Settings) (fuel limit : Nat)
    (inst : Option Env) (m : Module) (function param : String) (host : Host)
    (env0 : Env) (hinst : get_instance limit inst m = .ok env0)
    (e : String) (env2 : Env) (h2 : Host)
    (hexec : execution S (execCb S fuel) m function param
        (init_with_instance env0) host = (.trap e, env2, h2)) :
    (exec S (fuel + 1) limit inst m function param host).1 =
      (if env2.exhausted then
        .trap ("Not enough gas, limit reached at: " ++ function)
      else .trap e) := by
  rw [exec_succ]
  unfold exec_core
  simp only [hinst, hexec]
  by_cases hx : env2.exhausted <;> simp [hx]

theorem exec_trap_classification_witness :
    (exec S0 10 5 none M_gas "main" "" host0).1 =
      .trap ("Not enough gas, limit reached at: " ++ "main") ∧
    (exec S0 10 50 none M_gas "g" "" host0).1 =
      .trap ("Missing export " ++ "g") := by
  constructor
  · have h := exec_trap_classification S0 9 5 none M_gas "main" "" host0
      { gas := 5, exhausted := false, memory := none } rfl
      "gas limit reached"
      { gas := 0, exhausted := true, memory := some { store := [some ""] } }
      host0 rfl
    simpa using h
  · have h := exec_trap_classification S0 9 50 none M_gas "g" "" host0
      { gas := 50, exhausted := false, memory := none } rfl
      ("Missing export " ++ "g")
      { gas := 50, exhausted := false, memory := some { store := [some ""] } }
      host0 rfl
    simpa using h

/-- C9: a successful exec of the conventional entry returns the string 0
as ret, whatever raw value the guest function returned; a successful exec
of another function that returns no value yields the empty ret. -/
theorem exec_response_shape (S : Settings) (fuel limit : Nat)
    (inst : Option Env) (m : Module) (param : String) (host : Host) :
    (∀ r env2 h2,
      exec S (fuel + 1) limit inst m MAIN param host = (.ok r, env2, h2) →
      r.ret = "0") ∧
    (∀ function f r env2 h2, function ≠ MAIN →
      m.exports.lookup function = some f → f.ret = none →
      exec S (fuel + 1) limit inst m function param host = (.ok r, env2, h2) →
      r.ret = "") := by
  constructor
  · intro r env2 h2 h
    rw [exec_succ] at h
    obtain ⟨env0, -, hex⟩ := exec_core_ok h
    exact execution_ok_main hex
  · intro function f r env2 h2 hfn hf hret h
    rw [exec_succ] at h
    obtain ⟨env0, -, hex⟩ := exec_core_ok h
    exact execution_ok_noret hf hret hfn hex

theorem env_alloc_gas2 (e : Env) (s : String) :
    (env_alloc e s).2.gas = e.gas := by
  unfold env_alloc
  cases e.memory <;> simp

theorem env_alloc_exh (e : Env) (s : String) :
    (env_alloc e s).2.exhausted = e.exhausted := by
  unfold env_alloc
  cases e.memory <;> simp

theorem pointer_from_utf8_gas2 (e : Env) (b : List Nat) :
    (pointer_from_utf8 e b).2.gas = e.gas := by
  unfold pointer_from_utf8
  split <;> simp [env_alloc_gas2]

theorem pointer_from_utf8_exh (e : Env) (b : List Nat) :
    (pointer_from_utf8 e b).2.exhausted = e.exhausted := by
  unfold pointer_from_utf8
  split <;> simp [env_alloc_exh]

theorem abi_gas_print (S : Settings) (env : Env) (host : Host) (arg : Int) :
    (env.exhausted = false → S.metering_print < env.gas →
      (assembly_script_print S env host arg).2.1.gas =
        env.gas - S.metering_print) ∧
    (env.gas ≤ S.metering_print →
      (assembly_script_print S env host arg).1 = .trap "gas limit reached" ∧
      (assembly_script_print S env host arg).2.2 = host ∧
      (assembly_script_print S env host arg).2.1.gas = 0) := by
  constructor
  · intro hx h
    unfold assembly_script_print
    rw [sub_remaining_point_lt h]
    dsimp only
    rw [hx]
    simp only [Bool.false_eq_true, if_false]
    repeat' split
    all_goals rfl
  · intro h
    unfold assembly_script_print
    rw [sub_remaining_point_ge h]
    dsimp only
    exact ⟨rfl, rfl, rfl⟩

theorem abi_gas_call (S : Settings) (cb : ExecCb) (env : Env) (host : Host)
    (a f p : Int) :
    (env.exhausted = false → S.metering_call < env.gas →
      (assembly_script_call_module S cb env host a f p).2.1.gas =
        env.gas - S.metering_call) ∧
    (env.gas ≤ S.metering_call →
      (assembly_script_call_module S cb env host a f p).1 =
        .trap "gas limit reached" ∧
      (assembly_script_call_module S cb env host a f p).2.2 = host ∧
      (assembly_script_call_module S cb env host a f p).2.1.gas = 0) := by
  constructor
  · intro hx h
    unfold assembly_script_call_module
    rw [sub_remaining_point_lt h]
    dsimp only
    rw [hx]
    simp only [Bool.false_eq_true, if_false]
    repeat' split
    all_goals try rfl
    all_goals
      rename_i heq
      have hg := congrArg (fun x => x.2.gas) heq
      simp [env_alloc_gas2, pointer_from_utf8_gas2] at hg ⊢
      omega
  · intro h
    unfold assembly_script_call_module
    rw [sub_remaining_point_ge h]
    dsimp only
    exact ⟨rfl, rfl, rfl⟩

theorem abi_gas_remaining (S : Settings) (env : Env) (host : Host) :
    (env.exhausted = false → S.metering_remaining_points < env.gas →
      (get_remaining_points S env host).2.1.gas =
        env.gas - S.metering_remaining_points) ∧
    (env.gas ≤ S.metering_remaining_points →
      (get_remaining_points S env host).1 = .trap "gas limit reached" ∧
      (get_remaining_points S env host).2.2 = host ∧
      (get_remaining_points S env host).2.1.gas = 0) := by
  constructor
  · intro hx h
    unfold get_remaining_points
    rw [sub_remaining_point_lt h]
    dsimp only
    rw [hx]
    simp only [Bool.false_eq_true, if_false]
  · intro h
    unfold get_remaining_points
    rw [sub_remaining_point_ge h]
    dsimp only
    exact ⟨rfl, rfl, rfl⟩

theorem abi_gas_create_sc (S : Settings) (env : Env) (host : Host)
    (b : Int) :
    (env.exhausted = false → S.metering_create_sc < env.gas →
      (assembly_script_create_sc S env host b).2.1.gas =
        env.gas - S.metering_create_sc) ∧
    (env.gas ≤ S.metering_create_sc →
      (assembly_script_create_sc S env host b).1 = .trap "gas limit reached" ∧
      (assembly_script_create_sc S env host b).2.2 = host ∧
      (assembly_script_create_sc S env host b).2.1.gas = 0) := by
  constructor
  · intro hx h
    unfold assembly_script_create_sc
    rw [sub_remaining_point_lt h]
    dsimp only
    rw [hx]
    simp only [Bool.false_eq_true, if_false]
    repeat' split
    all_goals try rfl
    all_goals
      rename_i heq
      have hg := congrArg (fun x => x.2.gas) heq
      simp [env_alloc_gas2, pointer_from_utf8_gas2] at hg ⊢
      omega
  · intro h
    unfold assembly_script_create_sc
    rw [sub_remaining_point_ge h]
    dsimp only
    exact ⟨rfl, rfl, rfl⟩

theorem abi_gas_set_data (S : Settings) (env : Env) (host : Host)
    (k v : Int) :
    (env.exhausted = false → S.metering_set_data < env.gas →
      (assembly_script_set_data S env host k v).2.1.gas =
        env.gas - S.metering_set_data) ∧
    (env.gas ≤ S.metering_set_data →
      (assembly_script_set_data S env host k v).1 = .trap "gas limit reached" ∧
      (assembly_script_set_data S env host k v).2.2 = host ∧
      (assembly_script_set_data S env host k v).2.1.gas = 0) := by
  constructor
  · intro hx h
    unfold assembly_script_set_data
    rw [sub_remaining_point_lt h]
    dsimp only
    rw [hx]
    simp only [Bool.false_eq_true, if_false]
    repeat' split
    all_goals rfl
  · intro h
    unfold assembly_script_set_data
    rw [sub_remaining_point_ge h]
    dsimp only
    exact ⟨rfl, rfl, rfl⟩

theorem abi_gas_get_data (S : Settings) (env : Env) (host : Host) (k : Int) :
    (env.exhausted = false → S.metering_get_data < env.gas →
      (assembly_script_get_data S env host k).2.1.gas =
        env.gas - S.metering_get_data) ∧
    (env.gas ≤ S.metering_get_data →
      (assembly_script_get_data S env host k).1 = .trap "gas limit reached" ∧
      (assembly_script_get_data S env host k).2.2 = host ∧
      (assembly_script_get_data S env host k).2.1.gas = 0) := by
  constructor
  · intro hx h
    unfold assembly_script_get_data
    rw [sub_remaining_point_lt h]
    dsimp only
    rw [hx]
    simp only [Bool.false_eq_true, if_false]
    repeat' split
    all_goals try rfl
    all_goals
      rename_i heq
      have hg := congrArg (fun x => x.2.gas) heq
      simp [env_alloc_gas2, pointer_from_utf8_gas2] at hg ⊢
      omega
  · intro h
    unfold assembly_script_get_data
    rw [sub_remaining_point_ge h]
    dsimp only
    exact ⟨rfl, rfl, rfl⟩

theorem abi_gas_set_data_for (S : Settings) (env : Env) (host : Host)
    (a k v : Int) :
    (env.exhausted = false → S.metering_set_data < env.gas →
      (assembly_script_set_data_for S env host a k v).2.1.gas =
        env.gas - S.metering_set_data) ∧
    (env.gas ≤ S.metering_set_data →
      (assembly_script_set_data_for S env host a k v).1 =
        .trap "gas limit reached" ∧
      (assembly_script_set_data_for S env host a k v).2.2 = host ∧
      (assembly_script_set_data_for S env host a k v).2.1.gas = 0) := by
  constructor
  · intro hx h
    unfold assembly_script_set_data_for
    rw [sub_remaining_point_lt h]
    dsimp only
    rw [hx]
    simp only [Bool.false_eq_true, if_false]
    repeat' split
    all_goals rfl
  · intro h
    unfold assembly_script_set_data_for
    rw [sub_remaining_point_ge h]
    dsimp only
    exact ⟨rfl, rfl, rfl⟩

theorem abi_gas_get_data_for (S : Settings) (env : Env) (host : Host)
    (a k : Int) :
    (env.exhausted = false → S.metering_get_data < env.gas →
      (assembly_script_get_data_for S env host a k).2.1.gas =
        env.gas - S.metering_get_data) ∧
    (env.gas ≤ S.metering_get_data →
      (assembly_script_get_data_for S env host a k).1 =
        .trap "gas limit reached" ∧
      (assembly_script_get_data_for S env host a k).2.2 = host ∧
      (assembly_script_get_data_for S env host a k).2.1.gas = 0) := by
  constructor
  · intro hx h
    unfold assembly_script_get_data_for
    rw [sub_remaining_point_lt h]
    dsimp only
    rw [hx]
    simp only [Bool.false_eq_true, if_false]
    repeat' split
    all_goals try rfl
    all_goals
      rename_i heq
      have hg := congrArg (fun x => x.2.gas) heq
      simp [env_alloc_gas2, pointer_from_utf8_gas2] at hg ⊢
      omega
  · intro h
    unfold assembly_script_get_data_for
    rw [sub_remaining_point_ge h]
    dsimp only
    exact ⟨rfl, rfl, rfl⟩

/-- C4: every ABI prologue deducts exactly the cost configured in the
Settings table at the moment of the call. The first clause of each
conjunct quantifies over every host state, so the resulting counter is
the same whether the underlying host call succeeds or fails; the second
clause shows the deduction happens before any memory read or host call:
when it exhausts the budget the call traps with the host state (reply
sequence and call log) untouched. -/
theorem abi_prologue_gas (S : Settings) :
    (∀ env host (arg : Int),
      (env.exhausted = false → S.metering_print < env.gas →
        (assembly_script_print S env host arg).2.1.gas =
          env.gas - S.metering_print) ∧
      (env.gas ≤ S.metering_print →
        (assembly_script_print S env host arg).1 = .trap "gas limit reached" ∧
        (assembly_script_print S env host arg).2.2 = host ∧
        (assembly_script_print S env host arg).2.1.gas = 0)) ∧
    (∀ (cb : ExecCb) env host (a f p : Int),
      (env.exhausted = false → S.metering_call < env.gas →
        (assembly_script_call_module S cb env host a f p).2.1.gas =
          env.gas - S.metering_call) ∧
      (env.gas ≤ S.metering_call →
        (assembly_script_call_module S cb env host a f p).1 =
          .trap "gas limit reached" ∧
        (assembly_script_call_module S cb env host a f p).2.2 = host ∧
        (assembly_script_call_module S cb env host a f p).2.1.gas = 0)) ∧
    (∀ env host,
      (env.exhausted = false → S.metering_remaining_points < env.gas →
        (get_remaining_points S env host).2.1.gas =
          env.gas - S.metering_remaining_points) ∧
      (env.gas ≤ S.metering_remaining_points →
        (get_remaining_points S env host).1 = .trap "gas limit reached" ∧
        (get_remaining_points S env host).2.2 = host ∧
        (get_remaining_points S env host).2.1.gas = 0)) ∧
    (∀ env host (b : Int),
      (env.exhausted = false → S.metering_create_sc < env.gas →
        (assembly_script_create_sc S env host b).2.1.gas =
          env.gas - S.metering_create_sc) ∧
      (env.gas ≤ S.metering_create_sc →
        (assembly_script_create_sc S env host b).1 =
          .trap "gas limit reached" ∧
        (assembly_script_create_sc S env host b).2.2 = host ∧
        (assembly_script_create_sc S env host b).2.1.gas = 0)) ∧
    (∀ env host (k v : Int),
      (env.exhausted = false → S.metering_set_data < env.gas →
        (assembly_script_set_data S env host k v).2.1.gas =
          env.gas - S.metering_set_data) ∧
      (env.gas ≤ S.metering_set_data →
        (assembly_script_set_data S env host k v).1 =
          .trap "gas limit reached" ∧
        (assembly_script_set_data S env host k v).2.2 = host ∧
        (assembly_script_set_data S env host k v).2.1.gas = 0)) ∧
    (∀ env host (k : Int),
      (env.exhausted = false → S.metering_get_data < env.gas →
        (assembly_script_get_data S env host k).2.1.gas =
          env.gas - S.metering_get_data) ∧
      (env.gas ≤ S.metering_get_data →
        (assembly_script_get_data S env host k).1 =
          .trap "gas limit reached" ∧
        (assembly_script_get_data S env host k).2.2 = host ∧
        (assembly_script_get_data S env host k).2.1.gas = 0)) ∧
    (∀ env host (a k v : Int),
      (env.exhausted = false → S.metering_set_data < env.gas →
        (assembly_script_set_data_for S env host a k v).2.1.gas =
          env.gas - S.metering_set_data) ∧
      (env.gas ≤ S.metering_set_data →
        (assembly_script_set_data_for S env host a k v).1 =
          .trap "gas limit reached" ∧
        (assembly_script_set_data_for S env host a k v).2.2 = host ∧
        (assembly_script_set_data_for S env host a k v).2.1.gas = 0)) ∧
    (∀ env host (a k : Int),
      (env.exhausted = false → S.metering_get_data < env.gas →
        (assembly_script_get_data_for S env host a k).2.1.gas =
          env.gas - S.metering_get_data) ∧
      (env.gas ≤ S.metering_get_data →
        (assembly_script_get_data_for S env host a k).1 =
          .trap "gas limit reached" ∧
        (assembly_script_get_data_for S env host a k).2.2 = host ∧
        (assembly_script_get_data_for S env host a k).2.1.gas = 0)) :=
  ⟨fun env host arg => abi_gas_print S env host arg,
   fun cb env host a f p => abi_gas_call S cb env host a f p,
   fun env host => abi_gas_remaining S env host,
   fun env host b => abi_gas_create_sc S env host b,
   fun env host k v => abi_gas_set_data S env host k v,
   fun env host k => abi_gas_get_data S env host k,
   fun env host a k v => abi_gas_set_data_for S env host a k v,
   fun env host a k => abi_gas_get_data_for S env host a k⟩

theorem abi_read_fail_print (S : Settings) (env : Env) (host : Host)
    (arg : Int) (mem : MemState) (hm : env.memory = some mem)
    (hr : memRead mem arg = none) :
    (assembly_script_print S env host arg).1.isTrap = true ∧
    (assembly_script_print S env host arg).2.2 = host := by
  unfold assembly_script_print
  dsimp only
  rw [sub_remaining_point_memory, hm]
  split
  · simp [AbiOutcome.isTrap]
  · simp [hr, AbiOutcome.isTrap]

theorem abi_read_fail_call (S : Settings) (cb : ExecCb) (env : Env)
    (host : Host) (a f p : Int) (mem : MemState) (hm : env.memory = some mem)
    (hr : memRead mem a = none ∨ memRead mem f = none ∨ memRead mem p = none) :
    (assembly_script_call_module S cb env host a f p).1.isTrap = true ∧
    (assembly_script_call_module S cb env host a f p).2.2 = host := by
  unfold assembly_script_call_module
  dsimp only
  rw [sub_remaining_point_memory, hm]
  split
  · simp [AbiOutcome.isTrap]
  · rcases hr with hr | hr | hr <;>
      cases h1 : memRead mem a <;> cases h2 : memRead mem f <;>
        cases h3 : memRead mem p <;> simp_all [AbiOutcome.isTrap]

theorem abi_read_fail_create_sc (S : Settings) (env : Env) (host : Host)
    (b : Int) (mem : MemState) (hm : env.memory = some mem)
    (hr : memRead mem b = none) :
    (assembly_script_create_sc S env host b).1.isTrap = true ∧
    (assembly_script_create_sc S env host b).2.2 = host := by
  unfold assembly_script_create_sc
  dsimp only
  rw [sub_remaining_point_memory, hm]
  split
  · simp [AbiOutcome.isTrap]
  · simp [hr, AbiOutcome.isTrap]

theorem abi_read_fail_set_data (S : Settings) (env : Env) (host : Host)
    (k v : Int) (mem : MemState) (hm : env.memory = some mem)
    (hr : memRead mem k = none ∨ memRead mem v = none) :
    (assembly_script_set_data S env host k v).1.isTrap = true ∧
    (assembly_script_set_data S env host k v).2.2 = host := by
  unfold assembly_script_set_data
  dsimp only
  rw [sub_remaining_point_memory, hm]
  split
  · simp [AbiOutcome.isTrap]
  · rcases hr with hr | hr <;>
      cases h1 : memRead mem k <;> cases h2 : memRead mem v <;>
        simp_all [AbiOutcome.isTrap]

theorem abi_read_fail_get_data (S : Settings) (env : Env) (host : Host)
    (k : Int) (mem : MemState) (hm : env.memory = some mem)
    (hr : memRead mem k = none) :
    (assembly_script_get_data S env host k).1.isTrap = true ∧
    (assembly_script_get_data S env host k).2.2 = host := by
  unfold assembly_script_get_data
  dsimp only
  rw [sub_remaining_point_memory, hm]
  split
  · simp [AbiOutcome.isTrap]
  · simp [hr, AbiOutcome.isTrap]

theorem abi_read_fail_set_data_for (S : Settings) (env : Env) (host : Host)
    (a k v : Int) (mem : MemState) (hm : env.memory = some mem)
    (hr : memRead mem a = none ∨ memRead mem k = none ∨ memRead mem v = none) :
    (assembly_script_set_data_for S env host a k v).1.isTrap = true ∧
    (assembly_script_set_data_for S env host a k v).2.2 = host := by
  unfold assembly_script_set_data_for
  dsimp only
  rw [sub_remaining_point_memory, hm]
  split
  · simp [AbiOutcome.isTrap]
  · rcases hr with hr | hr | hr <;>
      cases h1 : memRead mem a <;> cases h2 : memRead mem k <;>
        cases h3 : memRead mem v <;> simp_all [AbiOutcome.isTrap]

theorem abi_read_fail_get_data_for (S : Settings) (env : Env) (host : Host)
    (a k : Int) (mem : MemState) (hm : env.memory = some mem)
    (hr : memRead mem a = none ∨ memRead mem k = none) :
    (assembly_script_get_data_for S env host a k).1.isTrap = true ∧
    (assembly_script_get_data_for S env host a k).2.2 = host := by
  unfold assembly_script_get_data_for
  dsimp only
  rw [sub_remaining_point_memory, hm]
  split
  · simp [AbiOutcome.isTrap]
  · rcases hr with hr | hr <;>
      cases h1 : memRead mem a <;> cases h2 : memRead mem k <;>
        simp_all [AbiOutcome.isTrap]

/-- C5: in every ABI function reading guest string arguments, if any of
the reads fails (invalid pointer or unreadable content) the call ends in
a trap and the host state is returned untouched: the reply sequence is
not consumed and the Interface call log is unchanged, so no host method
was invoked and no host-visible mutation occurred. -/
theorem abi_read_fail_no_host_call (S : Settings) :
    (∀ env host (arg : Int) mem, env.memory = some mem →
      memRead mem arg = none →
      (assembly_script_print S env host arg).1.isTrap = true ∧
      (assembly_script_print S env host arg).2.2 = host) ∧
    (∀ (cb : ExecCb) env host (a f p : Int) mem, env.memory = some mem →
      (memRead mem a = none ∨ memRead mem f = none ∨ memRead mem p = none) →
      (assembly_script_call_module S cb env host a f p).1.isTrap = true ∧
      (assembly_script_call_module S cb env host a f p).2.2 = host) ∧
    (∀ env host (b : Int) mem, env.memory = some mem →
      memRead mem b = none →
      (assembly_script_create_sc S env host b).1.isTrap = true ∧
      (assembly_script_create_sc S env host b).2.2 = host) ∧
    (∀ env host (k v : Int) mem, env.memory = some mem →
      (memRead mem k = none ∨ memRead mem v = none) →
      (assembly_script_set_data S env host k v).1.isTrap = true ∧
      (assembly_script_set_data S env host k v).2.2 = host) ∧
    (∀ env host (k : Int) mem, env.memory = some mem →
      memRead mem k = none →
      (assembly_script_get_data S env host k).1.isTrap = true ∧
      (assembly_script_get_data S env host k).2.2 = host) ∧
    (∀ env host (a k v : Int) mem, env.memory = some mem →
      (memRead mem a = none ∨ memRead mem k = none ∨ memRead mem v = none) →
      (assembly_script_set_data_for S env host a k v).1.isTrap = true ∧
      (assembly_script_set_data_for S env host a k v).2.2 = host) ∧
    (∀ env host (a k : Int) mem, env.memory = some mem →
      (memRead mem a = none ∨ memRead mem k = none) →
      (assembly_script_get_data_for S env host a k).1.isTrap = true ∧
      (assembly_script_get_data_for S env host a k).2.2 = host) :=
  ⟨fun env host arg mem hm hr => abi_read_fail_print S env host arg mem hm hr,
   fun cb env host a f p mem hm hr =>
     abi_read_fail_call S cb env host a f p mem hm hr,
   fun env host b mem hm hr => abi_read_fail_create_sc S env host b mem hm hr,
   fun env host k v mem hm hr => abi_read_fail_set_data S env host k v mem hm hr,
   fun env host k mem hm hr => abi_read_fail_get_data S env host k mem hm hr,
   fun env host a k v mem hm hr =>
     abi_read_fail_set_data_for S env host a k v mem hm hr,
   fun env host a k mem hm hr =>
     abi_read_fail_get_data_for S env host a k mem hm hr⟩

theorem abi_read_fail_no_host_call_witness :
    ((assembly_script_print S0 envEmptyMem host0 0).1.isTrap = true ∧
      (assembly_script_print S0 envEmptyMem host0 0).2.2 = host0) ∧
    ((assembly_script_set_data S0 envEmptyMem host0 0 1).1.isTrap = true ∧
      (assembly_script_set_data S0 envEmptyMem host0 0 1).2.2 = host0) := by
  have h := abi_read_fail_no_host_call S0
  exact ⟨h.1 envEmptyMem host0 0 { store := [] } rfl rfl,
         h.2.2.2.1 envEmptyMem host0 0 1 { store := [] } rfl (Or.inl rfl)⟩

theorem abi_prologue_gas_witness :
    (assembly_script_print S0 envEmptyMem host0 0).2.1.gas = 1000 - 10 ∧
    (assembly_script_print S0 envLow host0 0).1 = .trap "gas limit reached" ∧
    (assembly_script_print S0 envLow host0 0).2.2 = host0 := by
  have h := abi_prologue_gas S0
  refine ⟨(h.1 envEmptyMem host0 0).1 rfl (by decide), ?_, ?_⟩
  · exact ((h.1 envLow host0 0).2 (by decide)).1
  · exact ((h.1 envLow host0 0).2 (by decide)).2.1

theorem exec_response_shape_witness :
    ({ ret := "0", remaining_gas := 49 } : Response).ret = "0" ∧
    ({ ret := "", remaining_gas := 48 } : Response).ret = "" := by
  constructor
  · exact (exec_response_shape S0 9 50 none M_main "xyz" host0).1
      { ret := "0", remaining_gas := 49 }
      { gas := 49, exhausted := false, memory := some { store := [some "xyz"] } }
      host0 rfl
  · exact (exec_response_shape S0 9 50 none M_noret "p" host0).2
      "g" { body := [.nop], ret := none }
      { ret := "", remaining_gas := 48 }
      { gas := 48, exhausted := false, memory := some { store := [some "p"] } }
      host0 (by decide) rfl rfl rfl

theorem snd_gas_of_eq {α : Type} {r : AbiOutcome α × Env} {o : AbiOutcome α}
    {e : Env} (heq : r = (o, e)) : e.gas = r.2.gas := by rw [heq]

theorem snd_exh_of_eq {α : Type} {r : AbiOutcome α × Env} {o : AbiOutcome α}
    {e : Env} (heq : r = (o, e)) : e.exhausted = r.2.exhausted := by rw [heq]

theorem abi_step_print (S : Settings) (env : Env) (host : Host) (arg : Int) :
    (assembly_script_print S env host arg).2.1.gas =
      (sub_remaining_point env S.metering_print).gas ∧
    (assembly_script_print S env host arg).2.1.exhausted =
      (sub_remaining_point env S.metering_print).exhausted ∧
    (∀ v, (assembly_script_print S env host arg).1 = .ok v →
      (sub_remaining_point env S.metering_print).exhausted = false) := by
  unfold assembly_script_print
  dsimp only
  split
  · exact ⟨rfl, rfl, fun v hok => by simp at hok⟩
  · rename_i hx
    have hx2 : (sub_remaining_point env S.metering_print).exhausted = false := by
      simpa using hx
    repeat' split
    all_goals refine ⟨?_, ?_, fun v hok => hx2⟩
    all_goals first
      | rfl
      | (rename_i heq
         first
           | exact (snd_gas_of_eq heq).trans (env_alloc_gas2 _ _)
           | exact (snd_exh_of_eq heq).trans (env_alloc_exh _ _)
           | exact (snd_gas_of_eq heq).trans (pointer_from_utf8_gas2 _ _)
           | exact (snd_exh_of_eq heq).trans (pointer_from_utf8_exh _ _))

theorem abi_step_call (S : Settings) (cb : ExecCb) (env : Env) (host : Host)
    (a f p : Int) :
    (assembly_script_call_module S cb env host a f p).2.1.gas =
      (sub_remaining_point env S.metering_call).gas ∧
    (assembly_script_call_module S cb env host a f p).2.1.exhausted =
      (sub_remaining_point env S.metering_call).exhausted ∧
    (∀ v, (assembly_script_call_module S cb env host a f p).1 = .ok v →
      (sub_remaining_point env S.metering_call).exhausted = false) := by
  unfold assembly_script_call_module
  dsimp only
  split
  · exact ⟨rfl, rfl, fun v hok => by simp at hok⟩
  · rename_i hx
    have hx2 : (sub_remaining_point env S.metering_call).exhausted = false := by
      simpa using hx
    repeat' split
    all_goals refine ⟨?_, ?_, fun v hok => hx2⟩
    all_goals first
      | rfl
      | (rename_i heq
         first
           | exact (snd_gas_of_eq heq).trans (env_alloc_gas2 _ _)
           | exact (snd_exh_of_eq heq).trans (env_alloc_exh _ _)
           | exact (snd_gas_of_eq heq).trans (pointer_from_utf8_gas2 _ _)
           | exact (snd_exh_of_eq heq).trans (pointer_from_utf8_exh _ _))

theorem abi_step_get_data (S : Settings) (env : Env) (host : Host) (k : Int) :
    (assembly_script_get_data S env host k).2.1.gas =
      (sub_remaining_point env S.metering_get_data).gas ∧
    (assembly_script_get_data S env host k).2.1.exhausted =
      (sub_remaining_point env S.metering_get_data).exhausted ∧
    (∀ v, (assembly_script_get_data S env host k).1 = .ok v →
      (sub_remaining_point env S.metering_get_data).exhausted = false) := by
  unfold assembly_script_get_data
  dsimp only
  split
  · exact ⟨rfl, rfl, fun v hok => by simp at hok⟩
  · rename_i hx
    have hx2 : (sub_remaining_point env S.metering_get_data).exhausted = false := by
      simpa using hx
    repeat' split
    all_goals refine ⟨?_, ?_, fun v hok => hx2⟩
    all_goals first
      | rfl
      | (rename_i heq
         first
           | exact (snd_gas_of_eq heq).trans (env_alloc_gas2 _ _)
           | exact (snd_exh_of_eq heq).trans (env_alloc_exh _ _)
           | exact (snd_gas_of_eq heq).trans (pointer_from_utf8_gas2 _ _)
           | exact (snd_exh_of_eq heq).trans (pointer_from_utf8_exh _ _))


theorem abi_step_remaining (S : Settings) (env : Env) (host : Host) :
    (get_remaining_points S env host).2.1.gas =
      (sub_remaining_point env S.metering_remaining_points).gas ∧
    (get_remaining_points S env host).2.1.exhausted =
      (sub_remaining_point env S.metering_remaining_points).exhausted ∧
    (∀ v, (get_remaining_points S env host).1 = .ok v →
      (sub_remaining_point env S.metering_remaining_points).exhausted = false) := by
  unfold get_remaining_points
  dsimp only
  split
  · exact ⟨rfl, rfl, fun v hok => by simp at hok⟩
  · rename_i hx
    exact ⟨rfl, rfl, fun v hok => by simpa using hx⟩

theorem discardRet_snd {α : Type} (r : AbiOutcome α × Env × Host) :
    (discardRet r).2 = r.2 := by
  rcases r with ⟨o, e, h⟩
  cases o <;> rfl

theorem discardRet_ok {α : Type} {r : AbiOutcome α × Env × Host} {v : Unit}
    (h : (discardRet r).1 = .ok v) : ∃ w, r.1 = AbiOutcome.ok w := by
  rcases r with ⟨o, e, hh⟩
  cases o <;> simp_all [discardRet]

theorem step_of_abi {α : Type} (env : Env) (c : Nat)
    (r : AbiOutcome α × Env × Host) (hInv : GasInv env)
    (h1 : r.2.1.gas = (sub_remaining_point env c).gas)
    (h2 : r.2.1.exhausted = (sub_remaining_point env c).exhausted)
    (h3 : ∀ v, r.1 = .ok v → (sub_remaining_point env c).exhausted = false) :
    (discardRet r).2.1.gas ≤ env.gas ∧
    GasInv (discardRet r).2.1 ∧
    (env.exhausted = false →
      ∀ v, (discardRet r).1 = .ok v →
        (discardRet r).2.1.exhausted = false) := by
  refine ⟨?_, ?_, ?_⟩
  · rw [discardRet_snd, h1]
    exact sub_remaining_point_gas_le _ _
  · intro hex
    rw [discardRet_snd] at hex ⊢
    rw [h2] at hex
    rw [h1]
    exact sub_remaining_point_gasInv _ hInv hex
  · intro hx v hok
    rw [discardRet_snd, h2]
    obtain ⟨w, hw⟩ := discardRet_ok hok
    exact h3 w hw


theorem abi_step_create_sc (S : Settings) (env : Env) (host : Host) (b : Int) :
    (assembly_script_create_sc S env host b).2.1.gas =
      (sub_remaining_point env S.metering_create_sc).gas ∧
    (assembly_script_create_sc S env host b).2.1.exhausted =
      (sub_remaining_point env S.metering_create_sc).exhausted ∧
    (∀ v, (assembly_script_create_sc S env host b).1 = .ok v →
      (sub_remaining_point env S.metering_create_sc).exhausted = false) := by
  unfold assembly_script_create_sc
  dsimp only
  split
  · exact ⟨rfl, rfl, fun v hok => by simp at hok⟩
  · rename_i hx
    have hx2 : (sub_remaining_point env S.metering_create_sc).exhausted = false := by
      simpa using hx
    repeat' split
    all_goals refine ⟨?_, ?_, fun v hok => hx2⟩
    all_goals first
      | rfl
      | (rename_i heq
         first
           | exact (snd_gas_of_eq heq).trans (env_alloc_gas2 _ _)
           | exact (snd_exh_of_eq heq).trans (env_alloc_exh _ _)
           | exact (snd_gas_of_eq heq).trans (pointer_from_utf8_gas2 _ _)
           | exact (snd_exh_of_eq heq).trans (pointer_from_utf8_exh _ _))

theorem abi_step_set_data (S : Settings) (env : Env) (host : Host) (k v : Int) :
    (assembly_script_set_data S env host k v).2.1.gas =
      (sub_remaining_point env S.metering_set_data).gas ∧
    (assembly_script_set_data S env host k v).2.1.exhausted =
      (sub_remaining_point env S.metering_set_data).exhausted ∧
    (∀ w, (assembly_script_set_data S env host k v).1 = .ok w →
      (sub_remaining_point env S.metering_set_data).exhausted = false) := by
  unfold assembly_script_set_data
  dsimp only
  split
  · exact ⟨rfl, rfl, fun w hok => by simp at hok⟩
  · rename_i hx
    have hx2 : (sub_remaining_point env S.metering_set_data).exhausted = false := by
      simpa using hx
    repeat' split
    all_goals exact ⟨rfl, rfl, fun w hok => hx2⟩

theorem abi_step_set_data_for (S : Settings) (env : Env) (host : Host)
    (a k v : Int) :
    (assembly_script_set_data_for S env host a k v).2.1.gas =
      (sub_remaining_point env S.metering_set_data).gas ∧
    (assembly_script_set_data_for S env host a k v).2.1.exhausted =
      (sub_remaining_point env S.metering_set_data).exhausted ∧
    (∀ w, (assembly_script_set_data_for S env host a k v).1 = .ok w →
      (sub_remaining_point env S.metering_set_data).exhausted = false) := by
  unfold assembly_script_set_data_for
  dsimp only
  split
  · exact ⟨rfl, rfl, fun w hok => by simp at hok⟩
  · rename_i hx
    have hx2 : (sub_remaining_point env S.metering_set_data).exhausted = false := by
      simpa using hx
    repeat' split
    all_goals exact ⟨rfl, rfl, fun w hok => hx2⟩

theorem abi_step_get_data_for (S : Settings) (env : Env) (host : Host)
    (a k : Int) :
    (assembly_script_get_data_for S env host a k).2.1.gas =
      (sub_remaining_point env S.metering_get_data).gas ∧
    (assembly_script_get_data_for S env host a k).2.1.exhausted =
      (sub_remaining_point env S.metering_get_data).exhausted ∧
    (∀ v, (assembly_script_get_data_for S env host a k).1 = .ok v →
      (sub_remaining_point env S.metering_get_data).exhausted = false) := by
  unfold assembly_script_get_data_for
  dsimp only
  split
  · exact ⟨rfl, rfl, fun v hok => by simp at hok⟩
  · rename_i hx
    have hx2 : (sub_remaining_point env S.metering_get_data).exhausted = false := by
      simpa using hx
    repeat' split
    all_goals refine ⟨?_, ?_, fun v hok => hx2⟩
    all_goals first
      | rfl
      | (rename_i heq
         first
           | exact (snd_gas_of_eq heq).trans (env_alloc_gas2 _ _)
           | exact (snd_exh_of_eq heq).trans (env_alloc_exh _ _)
           | exact (snd_gas_of_eq heq).trans (pointer_from_utf8_gas2 _ _)
           | exact (snd_exh_of_eq heq).trans (pointer_from_utf8_exh _ _))

theorem execOp_step (S : Settings) (cb : ExecCb) (op : GuestOp) (env : Env)
    (host : Host) (hInv : GasInv env) :
    (execOp S cb op env host).2.1.gas ≤ env.gas ∧
    GasInv (execOp S cb op env host).2.1 ∧
    (env.exhausted = false →
      ∀ v, (execOp S cb op env host).1 = .ok v →
        (execOp S cb op env host).2.1.exhausted = false) := by
  cases op
  case nop => exact ⟨Nat.le_refl _, hInv, fun hx v hok => hx⟩
  case print p =>
    have h := abi_step_print S env host p
    exact step_of_abi env S.metering_print _ hInv h.1 h.2.1 h.2.2
  case callSc a f p =>
    have h := abi_step_call S cb env host a f p
    exact step_of_abi env S.metering_call _ hInv h.1 h.2.1 h.2.2
  case getRemainingGas =>
    have h := abi_step_remaining S env host
    exact step_of_abi env S.metering_remaining_points _ hInv h.1 h.2.1 h.2.2
  case createSc b =>
    have h := abi_step_create_sc S env host b
    exact step_of_abi env S.metering_create_sc _ hInv h.1 h.2.1 h.2.2
  case setData k v =>
    have h := abi_step_set_data S env host k v
    exact step_of_abi env S.metering_set_data _ hInv h.1 h.2.1 h.2.2
  case getData k =>
    have h := abi_step_get_data S env host k
    exact step_of_abi env S.metering_get_data _ hInv h.1 h.2.1 h.2.2
  case setDataFor a k v =>
    have h := abi_step_set_data_for S env host a k v
    exact step_of_abi env S.metering_set_data _ hInv h.1 h.2.1 h.2.2
  case getDataFor a k =>
    have h := abi_step_get_data_for S env host a k
    exact step_of_abi env S.metering_get_data _ hInv h.1 h.2.1 h.2.2


theorem fst_env_of_eq3 {α : Type} {r : α × Env × Host} {o : α} {e : Env}
    {h : Host} (heq : r = (o, e, h)) : e = r.2.1 := by rw [heq]

theorem runOps_step (S : Settings) (cb : ExecCb) (ops : List GuestOp) :
    ∀ env host, GasInv env →
    (runOps S cb ops env host).2.1.gas ≤ env.gas ∧
    GasInv (runOps S cb ops env host).2.1 ∧
    (env.exhausted = false →
      (runOps S cb ops env host).1 = .ok () →
      (runOps S cb ops env host).2.1.exhausted = false) := by
  induction ops with
  | nil =>
    intro env host h
    exact ⟨Nat.le_refl _, h, fun hx _ => hx⟩
  | cons op rest ih =>
    intro env host h
    have hsub := sub_remaining_point_gas_le env 1
    have hsubInv := sub_remaining_point_gasInv (e := env) 1 h
    unfold runOps
    dsimp only
    split
    · rename_i hx
      exact ⟨hsub, hsubInv, fun hxx hok => by simp at hok⟩
    · rename_i hx
      have hx2 : (sub_remaining_point env 1).exhausted = false := by simpa using hx
      have hstep := execOp_step S cb op (sub_remaining_point env 1) host hsubInv
      split
      · rename_i v env2 h2 heq
        have he2 : env2 = (execOp S cb op (sub_remaining_point env 1) host).2.1 :=
          fst_env_of_eq3 heq
        have hInv2 : GasInv env2 := by rw [he2]; exact hstep.2.1
        have hrec := ih env2 h2 hInv2
        refine ⟨?_, hrec.2.1, ?_⟩
        · calc (runOps S cb rest env2 h2).2.1.gas ≤ env2.gas := hrec.1
            _ = (execOp S cb op (sub_remaining_point env 1) host).2.1.gas := by
                rw [he2]
            _ ≤ (sub_remaining_point env 1).gas := hstep.1
            _ ≤ env.gas := hsub
        · intro hxx hok
          have hopok : (execOp S cb op (sub_remaining_point env 1) host).1 = .ok v := by
            rw [heq]
          have hex2 : env2.exhausted = false := by
            rw [he2]
            exact hstep.2.2 hx2 v hopok
          exact hrec.2.2 hex2 hok
      · rename_i msg env2 h2 heq
        have he2 : env2 = (execOp S cb op (sub_remaining_point env 1) host).2.1 :=
          fst_env_of_eq3 heq
        refine ⟨?_, ?_, fun hxx hok => by simp at hok⟩
        · calc env2.gas
              = (execOp S cb op (sub_remaining_point env 1) host).2.1.gas := by
                rw [he2]
            _ ≤ (sub_remaining_point env 1).gas := hstep.1
            _ ≤ env.gas := hsub
        · rw [he2]
          exact hstep.2.1
      · rename_i msg env2 h2 heq
        have he2 : env2 = (execOp S cb op (sub_remaining_point env 1) host).2.1 :=
          fst_env_of_eq3 heq
        refine ⟨?_, ?_, fun hxx hok => by simp at hok⟩
        · calc env2.gas
              = (execOp S cb op (sub_remaining_point env 1) host).2.1.gas := by
                rw [he2]
            _ ≤ (sub_remaining_point env 1).gas := hstep.1
            _ ≤ env.gas := hsub
        · rw [he2]
          exact hstep.2.1


theorem snd_env_of_eq {α : Type} {r : AbiOutcome α × Env} {o : AbiOutcome α}
    {e : Env} (heq : r = (o, e)) : e = r.2 := by rw [heq]

theorem execution_step (S : Settings) (cb : ExecCb) (m : Module)
    (function param : String) (env : Env) (host : Host) (h : GasInv env) :
    (execution S cb m function param env host).2.1.gas ≤ env.gas ∧
    GasInv (execution S cb m function param env host).2.1 ∧
    (∀ r, (execution S cb m function param env host).1 = .ok r →
      r.remaining_gas ≤ env.gas ∧
      (execution S cb m function param env host).2.1.exhausted = false ∧
      r.remaining_gas ≠ 0) := by
  unfold execution
  dsimp only
  split
  · rename_i msg env1 heq
    have hg : env1.gas = env.gas :=
      (congrArg Env.gas (snd_env_of_eq heq)).trans (env_alloc_gas2 env param)
    have hx : env1.exhausted = env.exhausted :=
      (congrArg Env.exhausted (snd_env_of_eq heq)).trans (env_alloc_exh env param)
    exact ⟨le_of_eq hg,
      fun hex => by rw [hg]; exact h (hx.symm.trans hex),
      fun r hok => by simp at hok⟩
  · rename_i msg env1 heq
    have hg : env1.gas = env.gas :=
      (congrArg Env.gas (snd_env_of_eq heq)).trans (env_alloc_gas2 env param)
    have hx : env1.exhausted = env.exhausted :=
      (congrArg Env.exhausted (snd_env_of_eq heq)).trans (env_alloc_exh env param)
    exact ⟨le_of_eq hg,
      fun hex => by rw [hg]; exact h (hx.symm.trans hex),
      fun r hok => by simp at hok⟩
  · rename_i p0 env1 heq
    have hg : env1.gas = env.gas :=
      (congrArg Env.gas (snd_env_of_eq heq)).trans (env_alloc_gas2 env param)
    have hx : env1.exhausted = env.exhausted :=
      (congrArg Env.exhausted (snd_env_of_eq heq)).trans (env_alloc_exh env param)
    have hInv1 : GasInv env1 := fun hex => by rw [hg]; exact h (hx.symm.trans hex)
    split
    · exact ⟨le_of_eq hg, hInv1, fun r hok => by simp at hok⟩
    · rename_i f hf
      have hrec := runOps_step S cb f.body env1 host hInv1
      split
      · rename_i msg env2 h2 heq2
        have he2 : env2 = (runOps S cb f.body env1 host).2.1 := fst_env_of_eq3 heq2
        refine ⟨?_, ?_, fun r hok => by simp at hok⟩
        · rw [he2]
          exact le_trans hrec.1 (le_of_eq hg)
        · rw [he2]
          exact hrec.2.1
      · rename_i msg env2 h2 heq2
        have he2 : env2 = (runOps S cb f.body env1 host).2.1 := fst_env_of_eq3 heq2
        refine ⟨?_, ?_, fun r hok => by simp at hok⟩
        · rw [he2]
          exact le_trans hrec.1 (le_of_eq hg)
        · rw [he2]
          exact hrec.2.1
      · rename_i u env2 h2 heq2
        have he2 : env2 = (runOps S cb f.body env1 host).2.1 := fst_env_of_eq3 heq2
        have hg2 : env2.gas ≤ env.gas := by
          rw [he2]
          exact le_trans hrec.1 (le_of_eq hg)
        have hInv2 : GasInv env2 := by
          rw [he2]
          exact hrec.2.1
        split
        · rename_i hx3
          refine ⟨?_, sub_remaining_point_gasInv 1 hInv2, fun r hok => by simp at hok⟩
          exact le_trans (sub_remaining_point_gas_le env2 1) hg2
        · rename_i hx3
          have hx4 : (sub_remaining_point env2 1).exhausted = false := by
            simpa using hx3
          obtain ⟨hxe2, hlt, hgas3⟩ := sub_remaining_point_not_exhausted hx4
          have hchain : (sub_remaining_point env2 1).gas ≤ env.gas := by
            omega
          have hnz : (sub_remaining_point env2 1).gas ≠ 0 := by
            omega
          have hInv3 : GasInv (sub_remaining_point env2 1) := by
            intro hex
            rw [hx4] at hex
            cases hex
          split
          · refine ⟨hchain, hInv3, fun r hok => ?_⟩
            have hr : Response.mk "0"
                (get_remaining_points_for_env (sub_remaining_point env2 1)) = r := by
              simpa using hok
            refine ⟨?_, hx4, ?_⟩
            · rw [← hr]
              exact hchain
            · rw [← hr]
              exact hnz
          · split
            · refine ⟨hchain, hInv3, fun r hok => ?_⟩
              have hr : Response.mk ""
                  (get_remaining_points_for_env (sub_remaining_point env2 1)) = r := by
                simpa using hok
              refine ⟨?_, hx4, ?_⟩
              · rw [← hr]
                exact hchain
              · rw [← hr]
                exact hnz
            · exact ⟨hchain, hInv3, fun r hok => by simp at hok⟩
            · split
              · exact ⟨hchain, hInv3, fun r hok => by simp at hok⟩
              · rename_i mem hmem
                split
                · rename_i retv hread
                  refine ⟨hchain, hInv3, fun r hok => ?_⟩
                  have hr : Response.mk retv
                      (get_remaining_points_for_env (sub_remaining_point env2 1)) = r := by
                    simpa using hok
                  refine ⟨?_, hx4, ?_⟩
                  · rw [← hr]
                    exact hchain
                  · rw [← hr]
                    exact hnz
                · exact ⟨hchain, hInv3, fun r hok => by simp at hok⟩


theorem exec_core_gas (S : Settings) (cb : ExecCb) (limit : Nat) (m : Module)
    (function param : String) (host : Host) :
    (exec_core S cb limit none m function param host).2.1.gas ≤ limit ∧
    GasInv (exec_core S cb limit none m function param host).2.1 ∧
    (∀ r, (exec_core S cb limit none m function param host).1 = .ok r →
      r.remaining_gas ≤ limit ∧ r.remaining_gas ≠ 0 ∧
      (exec_core S cb limit none m function param host).2.1.exhausted = false) := by
  unfold exec_core get_instance create_instance
  cases hmod : m.instErr with
  | some e =>
    simp only [hmod]
    exact ⟨Nat.zero_le _, fun hex => by simp [Env.empty] at hex,
      fun r hok => by simp at hok⟩
  | none =>
    simp only [hmod]
    have hE := execution_step S cb m function param
      (init_with_instance { gas := limit, exhausted := false, memory := none })
      host (fun hex => by simp [init_with_instance] at hex)
    have hlim : (init_with_instance
        { gas := limit, exhausted := false, memory := none }).gas = limit := rfl
    split
    · rename_i resp env2 h2 heq
      have he2 : env2 = (execution S cb m function param
          (init_with_instance { gas := limit, exhausted := false, memory := none })
          host).2.1 := fst_env_of_eq3 heq
      have hok1 : (execution S cb m function param
          (init_with_instance { gas := limit, exhausted := false, memory := none })
          host).1 = .ok resp := by rw [heq]
      have hm := hE.2.2 resp hok1
      refine ⟨?_, ?_, fun r hok => ?_⟩
      · rw [he2]
        exact le_trans hE.1 (le_of_eq hlim)
      · rw [he2]
        exact hE.2.1
      · have hr : resp = r := by simpa using hok
        rw [← hr]
        refine ⟨le_trans hm.1 (le_of_eq hlim), hm.2.2, ?_⟩
        rw [he2]
        exact hm.2.1
    · rename_i msg env2 h2 heq
      have he2 : env2 = (execution S cb m function param
          (init_with_instance { gas := limit, exhausted := false, memory := none })
          host).2.1 := fst_env_of_eq3 heq
      refine ⟨?_, ?_, fun r hok => by simp at hok⟩
      · rw [he2]
        exact le_trans hE.1 (le_of_eq hlim)
      · rw [he2]
        exact hE.2.1
    · rename_i msg env2 h2 heq
      have he2 : env2 = (execution S cb m function param
          (init_with_instance { gas := limit, exhausted := false, memory := none })
          host).2.1 := fst_env_of_eq3 heq
      split
      · refine ⟨?_, ?_, fun r hok => by simp at hok⟩
        · rw [he2]
          exact le_trans hE.1 (le_of_eq hlim)
        · rw [he2]
          exact hE.2.1
      · refine ⟨?_, ?_, fun r hok => by simp at hok⟩
        · rw [he2]
          exact le_trans hE.1 (le_of_eq hlim)
        · rw [he2]
          exact hE.2.1

/-- C7: for every invocation of exec on a fresh instance, the metering
counter of the instance never exceeds the initial limit, an instance in
the Exhausted metering state has counter zero, and every Response
returned to the embedder satisfies remaining_gas at most the limit and
remaining_gas nonzero with the instance not exhausted: remaining gas is
zero exactly when the invocation aborted with gas exhaustion. -/
theorem exec_gas_invariant (S : Settings) (fuel limit : Nat) (m : Module)
    (function param : String) (host : Host) :
    (exec S fuel limit none m function param host).2.1.gas ≤ limit ∧
    ((exec S fuel limit none m function param host).2.1.exhausted = true →
      (exec S fuel limit none m function param host).2.1.gas = 0) ∧
    (∀ r, (exec S fuel limit none m function param host).1 = .ok r →
      r.remaining_gas ≤ limit ∧ r.remaining_gas ≠ 0 ∧
      (exec S fuel limit none m function param host).2.1.exhausted = false) := by
  cases fuel with
  | zero =>
    exact ⟨Nat.zero_le _, fun hex => by simp [exec, Env.empty] at hex,
      fun r hok => by simp [exec] at hok⟩
  | succ fuel =>
    rw [exec_succ]
    exact exec_core_gas S (execCb S fuel) limit m function param host

theorem exec_gas_invariant_witness :
    ({ ret := "0", remaining_gas := 49 } : Response).remaining_gas ≤ 50 ∧
    ({ ret := "0", remaining_gas := 49 } : Response).remaining_gas ≠ 0 ∧
    (exec S0 10 50 none M_main "main" "xyz" host0).2.1.exhausted = false := by
  have h := (exec_gas_invariant S0 10 50 M_main "main" "xyz" host0).2.2
    { ret := "0", remaining_gas := 49 } rfl
  exact ⟨h.1, h.2.1, h.2.2⟩

end Massa
